import Mathlib

/-!
# RigAsset Pro backend — verification of the transfer workflow and maintenance engine

Shallow embedding of the rigasset-backend repository's core logic:

* `src/routes/transfers.js` — two-stage transfer approval workflow
  (approve-ops, approve-mgr with its transactional side-effect bundle,
  cancellation, listing).
* `src/routes/maintenance.js` — maintenance schedule listing with derived
  live status, and the completion endpoint.
* `src/database/schema.sql` — table shapes and the `v_maintenance` view.

Modelling conventions:

* Postgres rows become Lean structures; UUIDs become `Nat` surrogate ids and
  the human-readable codes stay `String`s.  Nullable columns become `Option`.
* Dates are day numbers (`Int`, days since 1970-01-01, the value
  `new Date(s).getTime() / 86400000` takes for an ISO date string `s`).
  JavaScript's `getTime() + n * 86400000` arithmetic on UTC dates is exactly
  day-number addition, so `completionDate + frequency_days` calendar-day
  arithmetic is `Int` addition here.  `daysFromCivil` converts a Gregorian
  calendar date to its day number so concrete scenarios can be written with
  real dates.
* A route handler becomes a function from the database state (plus request
  parameters) to a pair of the HTTP-level result and the database state after
  the request.  `pool.query` writes commit individually; writes issued on a
  dedicated client between `BEGIN` and `COMMIT` roll back together, which the
  embedding reflects by returning the *original* state on the failure path of
  a transactional handler.  Possible failure of an individual SQL statement is
  injected through explicit `Bool` flags (`true` = that statement throws).
-/

namespace RigAsset

/-- A row of `users` (only the columns the workflow reads). -/
structure User where
  id : Nat
  full_name : String
  role : String
deriving Repr, DecidableEq

/-- A row of `rigs` (only the columns the maintenance listing reads). -/
structure Rig where
  id : Nat
  rig_id : String
  name : String
deriving Repr, DecidableEq

/-- A row of `assets`, from `schema.sql`.  All columns are kept so that the
frame condition of the relocation update (which fields it may touch) is
meaningful. -/
structure Asset where
  id : Nat
  asset_id : String
  name : String
  category : String
  company_id : Option Nat
  rig_id : Option Nat
  contract_id : Option Nat
  location : Option String
  status : String
  value_usd : Int
  acquisition_date : Option Int
  year_manufactured : Option Int
  serial_number : Option String
  manufacturer : Option String
  model : Option String
  weight_kg : Option Int
  dimensions : Option String
  notes : Option String
  created_by : Option Nat
deriving Repr, DecidableEq

/-- A row of `transfers`, from `schema.sql` (status defaults to `'Pending'`,
stage-1 and stage-2 decision columns are nullable). -/
structure Transfer where
  id : Nat
  transfer_id : String
  asset_id : Nat
  current_location : Option String
  destination : String
  dest_rig_id : Option Nat
  dest_company_id : Option Nat
  priority : String
  transfer_type : String
  reason : String
  requested_by : Nat
  request_date : Int
  required_date : Option Int
  status : String
  ops_approved_by : Option Nat
  ops_action : Option String
  ops_date : Option Int
  ops_comment : Option String
  mgr_approved_by : Option Nat
  mgr_action : Option String
  mgr_date : Option Int
  mgr_comment : Option String
deriving Repr, DecidableEq

/-- A row of `asset_history`. -/
structure HistoryEntry where
  asset_id : Nat
  action : String
  changed_by : Nat
  notes : String
deriving Repr, DecidableEq

/-- A row of `notifications` (`user_id` is null for a broadcast row). -/
structure Notification where
  user_id : Option Nat
  ntype : String
  icon : String
  title : String
  description : String
  entity_type : String
  entity_id : Nat
deriving Repr, DecidableEq

/-- A row of `maintenance_schedules`, from `schema.sql`. -/
structure Schedule where
  id : Nat
  pm_id : String
  asset_id : Nat
  task_name : String
  task_type : String
  priority : String
  frequency_days : Int
  last_done_date : Option Int
  next_due_date : Int
  alert_days : Int
  technician : Option String
  estimated_hours : Option Int
  estimated_cost : Option Int
  status : String
  notes : Option String
deriving Repr, DecidableEq

/-- A row of `maintenance_logs`. -/
structure MaintenanceLog where
  schedule_id : Nat
  completion_date : Int
  completed_by : String
  actual_hours : Option Int
  actual_cost : Option Int
  parts_used : Option String
  work_notes : Option String
  next_due_date : Int
deriving Repr, DecidableEq

/-- The database state: one list per table the core logic touches. -/
structure DB where
  users : List User
  rigs : List Rig
  assets : List Asset
  transfers : List Transfer
  history : List HistoryEntry
  notifs : List Notification
  schedules : List Schedule
  mlogs : List MaintenanceLog
deriving Repr, DecidableEq

/-- HTTP-level error: response status code and error message, as produced by
`res.status(code).json({ error: msg })` (a thrown SQL error surfaces as 500
through `middleware/errorHandler.js`). -/
structure ApiErr where
  code : Nat
  msg : String
deriving Repr, DecidableEq

/-- Result of a handler: a successful JSON payload or an error response. -/
inductive HRes (α : Type) where
  | ok : α → HRes α
  | err : ApiErr → HRes α
deriving Repr, DecidableEq

/-- Day number of the Gregorian date `y-m-d` relative to 1970-01-01 (the
standard civil-from-days correspondence; valid for years ≥ 1). -/
def daysFromCivil (y m d : Nat) : Int :=
  let yAdj := if m ≤ 2 then y - 1 else y
  let era := yAdj / 400
  let yoe := yAdj - era * 400
  let doy := (153 * (if m > 2 then m - 3 else m + 9) + 2) / 5 + d - 1
  let doe := yoe * 365 + yoe / 4 - yoe / 100 + doy
  (era * 146097 + doe : Int) - 719468

/-! ## Maintenance status derivation

`GET /api/maintenance` (routes/maintenance.js, the `live_status` CASE) and the
`v_maintenance` view (schema.sql) both derive a live status from the stored
status, the next-due date, today's date and the alert window — but their CASE
expressions differ in which stored statuses they preserve. Both are embedded
verbatim. -/

/-- The `live_status` CASE of `GET /api/maintenance` in `routes/maintenance.js`
(lines 64-69): preserves only `'Completed'` and `'Cancelled'`. -/
def liveStatusRoute (storedStatus : String) (nextDue today alertDays : Int) : String :=
  if storedStatus = "Completed" ∨ storedStatus = "Cancelled" then storedStatus
  else if nextDue < today then "Overdue"
  else if nextDue ≤ today + alertDays then "Due Soon"
  else "Scheduled"

/-- The `live_status` CASE of the `v_maintenance` view in `schema.sql`
(lines 590-596): preserves `'Completed'`, `'Cancelled'` and `'In Progress'`
("preserve explicit terminal / in-progress statuses"). -/
def liveStatusView (storedStatus : String) (nextDue today alertDays : Int) : String :=
  if storedStatus = "Completed" ∨ storedStatus = "Cancelled" ∨ storedStatus = "In Progress" then
    storedStatus
  else if nextDue < today then "Overdue"
  else if nextDue ≤ today + alertDays then "Due Soon"
  else "Scheduled"

/-- Column `days_until_due = ms.next_due_date - CURRENT_DATE` (may be negative). -/
def daysUntilDue (nextDue today : Int) : Int := nextDue - today

/-! ## Transfer workflow (`routes/transfers.js`) -/

/-- Clause `WHERE id = $1 OR transfer_id = $1` — a transfer reference matches either
the surrogate id or the human-readable code. -/
def transferMatches (ref : String) (t : Transfer) : Bool :=
  toString t.id == ref || t.transfer_id == ref

/-- Query `SELECT * FROM transfers WHERE id = $1 OR transfer_id = $1` (first row). -/
def findTransfer (db : DB) (ref : String) : Option Transfer :=
  db.transfers.find? (transferMatches ref)

/-- Statement `UPDATE transfers SET ... WHERE id = tid` — rewrite the rows whose surrogate
id equals `tid`, leave every other row alone. -/
def updateTransferRow (ts : List Transfer) (tid : Nat) (f : Transfer → Transfer) :
    List Transfer :=
  ts.map fun t => if t.id = tid then f t else t

/-- JavaScript's `String.prototype.trim()`: strip leading and trailing
whitespace (over the character list, so that it evaluates by `decide`). -/
def strTrim (s : String) : String :=
  String.mk (((s.data.dropWhile Char.isWhitespace).reverse.dropWhile Char.isWhitespace).reverse)

/-- The `action` body field must be one of `approve`, `reject`, `hold`. -/
def validAction (action : String) : Bool :=
  action == "approve" || action == "reject" || action == "hold"

/-- Stage-1 target status: `approve → 'Ops Approved'`, `reject → 'Rejected'`,
otherwise `'On Hold'`. -/
def opsNewStatus (action : String) : String :=
  if action = "approve" then "Ops Approved"
  else if action = "reject" then "Rejected" else "On Hold"

/-- Stage-2 target status: `approve → 'Completed'`, `reject → 'Rejected'`,
otherwise `'On Hold'`. -/
def mgrNewStatus (action : String) : String :=
  if action = "approve" then "Completed"
  else if action = "reject" then "Rejected" else "On Hold"

/-- The column assignments of the stage-1 `UPDATE transfers SET
ops_approved_by, ops_action, ops_date, ops_comment, status`. -/
def applyOpsDecision (t : Transfer) (userId : Nat) (action comment : String)
    (today : Int) : Transfer :=
  { t with ops_approved_by := some userId, ops_action := some action,
           ops_date := some today, ops_comment := some comment,
           status := opsNewStatus action }

/-- The column assignments of the stage-2 `UPDATE transfers SET
mgr_approved_by, mgr_action, mgr_date, mgr_comment, status`. -/
def applyMgrDecision (t : Transfer) (userId : Nat) (action comment : String)
    (today : Int) : Transfer :=
  { t with mgr_approved_by := some userId, mgr_action := some action,
           mgr_date := some today, mgr_comment := some comment,
           status := mgrNewStatus action }

/-- Statement `INSERT INTO notifications ... SELECT id, ... FROM users WHERE role ...` —
one notification row per user whose role is in `roles`. -/
def notifyRoles (db : DB) (roles : List String) (ntype icon title desc : String)
    (eid : Nat) : DB :=
  { db with notifs := db.notifs ++
      (db.users.filter fun u => roles.contains u.role).map fun u =>
        { user_id := some u.id, ntype := ntype, icon := icon, title := title,
          description := desc, entity_type := "transfer", entity_id := eid } }

/-- The read/validation phase of `POST /api/transfers/:id/approve-ops`:
action check (400), comment check (400), fetch (404), then the status
precondition — any status other than `'Pending'` yields
`409 "Transfer is already <status>"`.  No write happens here. -/
def approveOpsRead (db : DB) (ref : String) (action comment : String) :
    HRes Transfer :=
  if ¬ validAction action then
    .err ⟨400, "action must be approve, reject, or hold"⟩
  else if strTrim comment = "" then
    .err ⟨400, "Decision comment is required"⟩
  else
    match findTransfer db ref with
    | none => .err ⟨404, "Transfer not found"⟩
    | some t =>
      if t.status ≠ "Pending" then .err ⟨409, "Transfer is already " ++ t.status⟩
      else .ok t

/-- The write phase of approve-ops: the `UPDATE transfers ... WHERE id = $5`
from lines 150-156.  Its WHERE clause is keyed on the surrogate id only —
it carries no condition on the row's current status. -/
def approveOpsWrite (db : DB) (tid userId : Nat) (action comment : String)
    (today : Int) : DB :=
  { db with transfers :=
      (updateTransferRow db.transfers tid
        (fun t => applyOpsDecision t userId action comment today)) }

/-- Handler `POST /api/transfers/:id/approve-ops` as executed for one request with no
interleaving: read phase, then write phase, then (approve only) the
notification insert to Admin / Asset Manager users. -/
def approveOps (db : DB) (ref : String) (userId : Nat) (action comment : String)
    (today : Int) : HRes Transfer × DB :=
  match approveOpsRead db ref action comment with
  | .err e => (.err e, db)
  | .ok t =>
    let db1 := approveOpsWrite db t.id userId action comment today
    let db2 :=
      if action = "approve" then
        notifyRoles db1 ["Admin", "Asset Manager"] "info" "user-tie"
          "Transfer Awaiting Final Approval"
          ("Transfer " ++ t.transfer_id ++
            " approved by Ops Manager – needs your final decision") t.id
      else db1
    (.ok (applyOpsDecision t userId action comment today), db2)

/-- Statement `UPDATE assets SET ... WHERE id = aid`. -/
def updateAssetRow (l : List Asset) (aid : Nat) (f : Asset → Asset) : List Asset :=
  l.map fun a => if a.id = aid then f a else a

/-- The `UPDATE assets SET location = $1, rig_id = COALESCE($2, rig_id),
company_id = COALESCE($3, company_id)` applied on final approval:
location always becomes the destination; the rig / company references take
the destination value only when it is non-null and keep their current value
otherwise. -/
def applyRelocation (a : Asset) (destination : String)
    (destRig destCompany : Option Nat) : Asset :=
  { a with location := some destination,
           rig_id := match destRig with | some r => some r | none => a.rig_id,
           company_id := match destCompany with | some c => some c | none => a.company_id }

/-- Which of the four statements inside the approve-mgr transaction throw
(`true` = that `client.query` raises, triggering `ROLLBACK`). -/
structure TxFail where
  transferW : Bool
  assetW : Bool
  historyW : Bool
  notifW : Bool
deriving Repr, DecidableEq

/-- The body of the approve-mgr transaction (`BEGIN` … `COMMIT`): the transfer
row update, then — on approve only — the asset update, the asset-history
append and the broadcast notification insert.  `none` means some statement
threw and the transaction rolls back. -/
def approveMgrTx (db : DB) (t : Transfer) (userId : Nat) (action comment : String)
    (today : Int) (fail : TxFail) : Option (Transfer × DB) :=
  if fail.transferW then none else
  let t' := applyMgrDecision t userId action comment today
  let db1 := { db with transfers :=
                 (updateTransferRow db.transfers t.id
                   (fun u => applyMgrDecision u userId action comment today)) }
  if action = "approve" then
    if fail.assetW then none else
    let db2 := { db1 with assets :=
                   (updateAssetRow db1.assets t.asset_id
                     (fun a => applyRelocation a t.destination t.dest_rig_id t.dest_company_id)) }
    if fail.historyW then none else
    let db3 := { db2 with history :=
                   (db2.history ++
                     [({ asset_id := t.asset_id, action := "Transfer Completed",
                         changed_by := userId,
                         notes := "Transferred to " ++ t.destination ++ " via " ++ t.transfer_id } :
                        HistoryEntry)]) }
    if fail.notifW then none else
    let db4 := { db3 with notifs :=
                   (db3.notifs ++
                     [({ user_id := none, ntype := "success", icon := "check-double",
                         title := "Transfer Completed",
                         description := "Transfer " ++ t.transfer_id ++
                           " fully approved – asset relocated",
                         entity_type := "transfer", entity_id := t.id } : Notification)]) }
    some (t', db4)
  else
    some (t', db1)

/-- Handler `POST /api/transfers/:id/approve-mgr`: validations (400), fetch (404),
status precondition — any status other than `'Ops Approved'` yields
`409 "Transfer must be Ops Approved first (currently: <status>)"` — then the
transactional bundle.  On rollback the error propagates (a 500 through the
global error handler) and the database is the pre-transaction state. -/
def approveMgr (db : DB) (ref : String) (userId : Nat) (action comment : String)
    (today : Int) (fail : TxFail) : HRes Transfer × DB :=
  if ¬ validAction action then
    (.err ⟨400, "action must be approve, reject, or hold"⟩, db)
  else if strTrim comment = "" then
    (.err ⟨400, "Decision comment is required"⟩, db)
  else
    match findTransfer db ref with
    | none => (.err ⟨404, "Transfer not found"⟩, db)
    | some t =>
      if t.status ≠ "Ops Approved" then
        (.err ⟨409, "Transfer must be Ops Approved first (currently: " ++ t.status ++ ")"⟩, db)
      else
        match approveMgrTx db t userId action comment today fail with
        | some (t', db') => (.ok t', db')
        | none => (.err ⟨500, "Internal server error"⟩, db)

/-- The database state after the complete approve-mgr bundle: the transfer row
carries the stage-2 decision and status `'Completed'`, the asset row is
relocated, the asset-history entry is appended and the broadcast notification
is inserted — the post-state the all-or-nothing claim describes. -/
def mgrBundle (db : DB) (t : Transfer) (userId : Nat) (comment : String)
    (today : Int) : DB :=
  { db with
      transfers := (updateTransferRow db.transfers t.id
        (fun u => applyMgrDecision u userId "approve" comment today)),
      assets := (updateAssetRow db.assets t.asset_id
        (fun a => applyRelocation a t.destination t.dest_rig_id t.dest_company_id)),
      history := (db.history ++
        [({ asset_id := t.asset_id, action := "Transfer Completed", changed_by := userId,
            notes := "Transferred to " ++ t.destination ++ " via " ++ t.transfer_id } :
           HistoryEntry)]),
      notifs := (db.notifs ++
        [({ user_id := none, ntype := "success", icon := "check-double",
            title := "Transfer Completed",
            description := "Transfer " ++ t.transfer_id ++ " fully approved – asset relocated",
            entity_type := "transfer", entity_id := t.id } : Notification)]) }

/-- A row is deleted by `DELETE FROM transfers WHERE (id = $1 OR
transfer_id = $1) AND status IN ('Pending','On Hold')` iff this predicate
holds. -/
def cancellableMatch (ref : String) (t : Transfer) : Bool :=
  transferMatches ref t && (t.status == "Pending" || t.status == "On Hold")

/-- Handler `DELETE /api/transfers/:id`: hard-deletes every row matching
`cancellableMatch`; when no row matches (absent reference *or* non-cancellable
status) it answers `404 "Transfer not found or not cancellable"` and the
table is untouched. -/
def cancelTransfer (db : DB) (ref : String) : HRes String × DB :=
  match db.transfers.filter (cancellableMatch ref) with
  | [] => (.err ⟨404, "Transfer not found or not cancellable"⟩, db)
  | t :: _ =>
    (.ok ("Transfer " ++ t.transfer_id ++ " cancelled"),
     { db with transfers := db.transfers.filter fun u => !(cancellableMatch ref u) })

/-- The row `POST /api/transfers` inserts: the submitted fields, the asset's
current location snapshotted, `status` left to its `'Pending'` default and all
eight stage columns left null. -/
def mkTransfer (id : Nat) (tid : String) (aid : Nat) (curLoc : Option String)
    (dest : String) (drig dcomp : Option Nat) (prio ttype reason : String)
    (reqBy : Nat) (reqDate : Int) (reqdDate : Option Int) : Transfer :=
  { id := id, transfer_id := tid, asset_id := aid, current_location := curLoc,
    destination := dest, dest_rig_id := drig, dest_company_id := dcomp,
    priority := prio, transfer_type := ttype, reason := reason,
    requested_by := reqBy, request_date := reqDate, required_date := reqdDate,
    status := "Pending",
    ops_approved_by := none, ops_action := none, ops_date := none, ops_comment := none,
    mgr_approved_by := none, mgr_action := none, mgr_date := none, mgr_comment := none }

/-- Stage-1 decision columns are all populated. -/
def stage1Set (t : Transfer) : Bool :=
  t.ops_approved_by.isSome && t.ops_action.isSome && t.ops_date.isSome && t.ops_comment.isSome

/-- Stage-2 decision columns are all populated. -/
def stage2Set (t : Transfer) : Bool :=
  t.mgr_approved_by.isSome && t.mgr_action.isSome && t.mgr_date.isSome && t.mgr_comment.isSome

/-- One mutation of a persisted transfer row, as the route surface allows it:
`routes/transfers.js` updates a transfer row only in `approve-ops`
(guarded by status `'Pending'`) and `approve-mgr` (guarded by status
`'Ops Approved'`); both guards also require a valid action and a non-blank
comment.  Cancellation deletes the row outright and so produces no mutated
row. -/
inductive TransferStep : Transfer → Transfer → Prop where
  | ops : ∀ (t : Transfer) (userId : Nat) (action comment : String) (today : Int),
      t.status = "Pending" → validAction action = true → strTrim comment ≠ "" →
      TransferStep t (applyOpsDecision t userId action comment today)
  | mgr : ∀ (t : Transfer) (userId : Nat) (action comment : String) (today : Int),
      t.status = "Ops Approved" → validAction action = true → strTrim comment ≠ "" →
      TransferStep t (applyMgrDecision t userId action comment today)

/-- Transfer rows reachable through the route surface, with a ghost flag
recording whether a stage-2 decision (a transition out of `'Ops Approved'`)
has been applied to the row.  Creation always starts at `'Pending'` with the
flag off. -/
inductive ReachT : Transfer → Bool → Prop where
  | created : ∀ (id : Nat) (tid : String) (aid : Nat) (curLoc : Option String)
      (dest : String) (drig dcomp : Option Nat) (prio ttype reason : String)
      (reqBy : Nat) (reqDate : Int) (reqdDate : Option Int),
      ReachT (mkTransfer id tid aid curLoc dest drig dcomp prio ttype reason
        reqBy reqDate reqdDate) false
  | ops : ∀ (t : Transfer) (b : Bool) (userId : Nat) (action comment : String) (today : Int),
      ReachT t b → t.status = "Pending" → validAction action = true → strTrim comment ≠ "" →
      ReachT (applyOpsDecision t userId action comment today) b
  | mgr : ∀ (t : Transfer) (b : Bool) (userId : Nat) (action comment : String) (today : Int),
      ReachT t b → t.status = "Ops Approved" → validAction action = true → strTrim comment ≠ "" →
      ReachT (applyMgrDecision t userId action comment today) true

/-! ## Maintenance completion (`POST /api/maintenance/:id/complete`) -/

/-- Clause `WHERE id = $1 OR pm_id = $1`. -/
def scheduleMatches (ref : String) (s : Schedule) : Bool :=
  toString s.id == ref || s.pm_id == ref

/-- Query `SELECT * FROM maintenance_schedules WHERE id = $1 OR pm_id = $1`. -/
def findSchedule (db : DB) (ref : String) : Option Schedule :=
  db.schedules.find? (scheduleMatches ref)

/-- The request body of the complete endpoint.  A JavaScript-falsy value
(absent field or empty string) is modelled as `none`. -/
structure CompleteReq where
  completionDate : Option Int
  completedBy : Option String
  actualHours : Option Int
  actualCost : Option Int
  partsUsed : Option String
  workNotes : Option String
  nextDueDate : Option Int
deriving Repr, DecidableEq

/-- Expression `nextDueDate || new Date(new Date(completionDate).getTime() +
frequency_days * 86400000).toISOString().slice(0,10)` — the explicit next-due
date when supplied, otherwise the completion date plus `frequency_days`
calendar days (UTC millisecond arithmetic = day-number addition). -/
def computedNextDue (req : CompleteReq) (cd freq : Int) : Int :=
  match req.nextDueDate with
  | some d => d
  | none => cd + freq

/-- Handler `POST /api/maintenance/:id/complete`: fetch (404); `400` when
`completionDate` or `completedBy` is falsy; then **two independent
`pool.query` writes with no surrounding transaction** — the log `INSERT`
commits on its own, and only afterwards does the schedule `UPDATE` run.
`failLog` / `failSched` inject a failure of the respective statement; a
failure surfaces as a thrown error (500) and leaves whatever already
committed in place. -/
def completeTask (db : DB) (ref : String) (req : CompleteReq)
    (failLog failSched : Bool) : HRes (Schedule × MaintenanceLog) × DB :=
  match findSchedule db ref with
  | none => (.err ⟨404, "Schedule not found"⟩, db)
  | some s =>
    match req.completionDate, req.completedBy with
    | some cd, some cb =>
      let nd := computedNextDue req cd s.frequency_days
      if failLog then (.err ⟨500, "Internal server error"⟩, db)
      else
        let newLog : MaintenanceLog :=
          { schedule_id := s.id, completion_date := cd, completed_by := cb,
            actual_hours := req.actualHours, actual_cost := req.actualCost,
            parts_used := req.partsUsed, work_notes := req.workNotes,
            next_due_date := nd }
        let db1 := { db with mlogs := db.mlogs ++ [newLog] }
        if failSched then (.err ⟨500, "Internal server error"⟩, db1)
        else
          let upd : Schedule → Schedule := fun u =>
            { u with last_done_date := some cd, next_due_date := nd,
                     status := "Scheduled" }
          let db2 := { db1 with schedules :=
                        (db1.schedules.map fun u => if u.id = s.id then upd u else u) }
          (.ok (upd s, newLog), db2)
    | _, _ => (.err ⟨400, "completionDate and completedBy are required"⟩, db)

/-! ## Listing endpoints (`GET /api/transfers`, `GET /api/maintenance`) -/

/-- Clause `LIMIT limit OFFSET (page - 1) * limit`. -/
def paginate {α : Type} (xs : List α) (page limit : Nat) : List α :=
  (xs.drop ((page - 1) * limit)).take limit

/-- Condition `LOWER(col) LIKE '%' || LOWER(q) || '%'`. -/
def likeLower (col q : String) : Bool :=
  col.toLower.containsSubstr q.toLower

/-- Optional query-string filters of `GET /api/transfers`. -/
structure TransferFilters where
  status : Option String
  priority : Option String
  asset : Option String
  search : Option String
deriving Repr, DecidableEq

/-- The WHERE conditions of `GET /api/transfers` (the `asset` and `search`
conditions read the joined asset row). -/
def transferRowMatches (db : DB) (f : TransferFilters) (t : Transfer) : Bool :=
  (match f.status with | none => true | some s => t.status == s) &&
  (match f.priority with | none => true | some p => t.priority == p) &&
  (match f.asset with
   | none => true
   | some aref =>
     match db.assets.find? (fun a => a.id == t.asset_id) with
     | some a => a.asset_id == aref || toString a.id == aref
     | none => false) &&
  (match f.search with
   | none => true
   | some q =>
     likeLower t.transfer_id q ||
     (match db.assets.find? (fun a => a.id == t.asset_id) with
      | some a => likeLower a.name q
      | none => false) ||
     likeLower t.destination q)

/-- Clause `ORDER BY t.request_date DESC, t.transfer_id DESC`. -/
def transferOrder (t u : Transfer) : Bool :=
  if t.request_date = u.request_date then decide (u.transfer_id ≤ t.transfer_id)
  else decide (u.request_date ≤ t.request_date)

/-- Handler `GET /api/transfers`: filter, order, paginate, and answer
`{ data: rows, total: rows.length }` — `total` is computed from the returned
page, not from a separate count query. -/
def listTransfers (db : DB) (f : TransferFilters) (page limit : Nat) :
    List Transfer × Nat :=
  let rows := paginate ((db.transfers.filter (transferRowMatches db f)).mergeSort
    transferOrder) page limit
  (rows, rows.length)

/-- Optional query-string filters of `GET /api/maintenance`. -/
structure MaintFilters where
  rig : Option String
  asset : Option String
  priority : Option String
  taskType : Option String
  search : Option String
  status : Option String
deriving Repr, DecidableEq

/-- The rig row joined to a schedule through its asset (`LEFT JOIN assets a ON
a.id = ms.asset_id LEFT JOIN rigs r ON r.id = a.rig_id`). -/
def joinedRig (db : DB) (ms : Schedule) : Option Rig :=
  match db.assets.find? (fun a => a.id == ms.asset_id) with
  | some a =>
    match a.rig_id with
    | some rid => db.rigs.find? (fun r => r.id == rid)
    | none => none
  | none => none

/-- The WHERE conditions of `GET /api/maintenance`, including the live-status
filters expressed directly in SQL for `'Overdue'` and `'Due Soon'`. -/
def maintRowMatches (db : DB) (today : Int) (f : MaintFilters) (ms : Schedule) : Bool :=
  (match f.rig with
   | none => true
   | some rname => match joinedRig db ms with
     | some r => r.name == rname
     | none => false) &&
  (match f.asset with
   | none => true
   | some aref =>
     match db.assets.find? (fun a => a.id == ms.asset_id) with
     | some a => a.asset_id == aref || toString a.id == aref
     | none => false) &&
  (match f.priority with | none => true | some p => ms.priority == p) &&
  (match f.taskType with | none => true | some ty => ms.task_type == ty) &&
  (match f.search with
   | none => true
   | some q =>
     likeLower ms.task_name q ||
     (match db.assets.find? (fun a => a.id == ms.asset_id) with
      | some a => likeLower a.name q
      | none => false) ||
     (match ms.technician with
      | some tech => likeLower tech q
      | none => false)) &&
  (match f.status with
   | none => true
   | some st =>
     if st = "Overdue" then
       decide (ms.next_due_date < today) &&
         !(ms.status == "Completed" || ms.status == "Cancelled")
     else if st = "Due Soon" then
       decide (today ≤ ms.next_due_date) &&
         decide (ms.next_due_date ≤ today + ms.alert_days) &&
         !(ms.status == "Completed" || ms.status == "Cancelled")
     else ms.status == st)

/-- The urgency rank of the maintenance `ORDER BY` CASE: 1 = overdue,
2 = due soon, 3 = everything else. -/
def maintRank (today : Int) (ms : Schedule) : Nat :=
  if !(ms.status == "Completed" || ms.status == "Cancelled") &&
      decide (ms.next_due_date < today) then 1
  else if !(ms.status == "Completed" || ms.status == "Cancelled") &&
      decide (ms.next_due_date ≤ today + ms.alert_days) then 2
  else 3

/-- Clause `ORDER BY <urgency CASE>, ms.next_due_date ASC`. -/
def maintOrder (today : Int) (t u : Schedule) : Bool :=
  if maintRank today t = maintRank today u then
    decide (t.next_due_date ≤ u.next_due_date)
  else decide (maintRank today t ≤ maintRank today u)

/-- Handler `GET /api/maintenance`: filter, order, paginate, and answer
`{ data: rows, total: rows.length }` (the `GROUP BY ms.id` with the log join
keeps one row per schedule, so rows are schedules here). -/
def listMaintenance (db : DB) (today : Int) (f : MaintFilters) (page limit : Nat) :
    List Schedule × Nat :=
  let rows := paginate ((db.schedules.filter (maintRowMatches db today f)).mergeSort
    (maintOrder today)) page limit
  (rows, rows.length)

/-! ## Concrete fixtures

Small database states used to evaluate the handlers on concrete inputs
(seed-data-like values). -/

/-- An asset sitting on Rig 2. -/
def asset1 : Asset :=
  { id := 1, asset_id := "AST-001", name := "Top Drive", category := "Drilling Equipment",
    company_id := some 3, rig_id := some 2, contract_id := none, location := some "Rig 2",
    status := "Active", value_usd := 100000, acquisition_date := none,
    year_manufactured := some 2015, serial_number := some "SN-100",
    manufacturer := some "NOV", model := some "TDS-11SA", weight_kg := some 9000,
    dimensions := none, notes := none, created_by := some 1 }

/-- A freshly submitted transfer of `asset1` to Rig 5. -/
def pendingT : Transfer :=
  mkTransfer 1 "TR-1" 1 (some "Rig 2") "Rig 5" (some 5) none "Normal"
    "Field to Field" "relocation" 1 20000 none

/-- Fixture `pendingT` after a stage-1 approve by user 3. -/
def opsApprovedT : Transfer := applyOpsDecision pendingT 3 "approve" "ok" 20001

/-- Fixture `opsApprovedT` after a stage-2 approve by user 2. -/
def completedT : Transfer := applyMgrDecision opsApprovedT 2 "approve" "done" 20002

/-- The user directory of the fixtures. -/
def users1 : List User :=
  [{ id := 1, full_name := "Ahmad Mohammed", role := "Admin" },
   { id := 2, full_name := "Sara Al-Rashid", role := "Asset Manager" },
   { id := 3, full_name := "James Miller", role := "Operations Manager" }]

/-- Database holding `pendingT`. -/
def dbPend : DB :=
  { users := users1, rigs := [⟨2, "RIG-02", "Rig 2"⟩, ⟨5, "RIG-05", "Rig 5"⟩],
    assets := [asset1], transfers := [pendingT], history := [], notifs := [],
    schedules := [], mlogs := [] }

/-- Database holding `opsApprovedT` (awaiting the stage-2 decision). -/
def dbOps : DB := { dbPend with transfers := [opsApprovedT] }

/-- Database holding `completedT` (a terminal transfer). -/
def dbDone : DB := { dbPend with transfers := [completedT] }

/-- A maintenance schedule on `asset1`: every 30 days, due 2025-01-19,
currently flagged `'In Progress'`. -/
def sched1 : Schedule :=
  { id := 1, pm_id := "PM-1", asset_id := 1, task_name := "Oil change",
    task_type := "Preventive", priority := "Normal", frequency_days := 30,
    last_done_date := some (daysFromCivil 2024 12 20),
    next_due_date := daysFromCivil 2025 1 19, alert_days := 14,
    technician := some "Fatima Al-Zahra", estimated_hours := some 4,
    estimated_cost := some 500, status := "In Progress", notes := none }

/-- Database holding `sched1`. -/
def dbSched : DB := { dbPend with schedules := [sched1] }

/-- A completion request dated 2025-01-19 with no explicit next-due date. -/
def reqDone : CompleteReq :=
  { completionDate := some (daysFromCivil 2025 1 19),
    completedBy := some "Fatima Al-Zahra", actualHours := some 3,
    actualCost := none, partsUsed := none, workNotes := none, nextDueDate := none }

/-- The same request with `completedBy` absent. -/
def reqNoBy : CompleteReq := { reqDone with completedBy := none }

/-- The log row the completion of `sched1` under `reqDone` writes. -/
def logDone : MaintenanceLog :=
  { schedule_id := 1, completion_date := daysFromCivil 2025 1 19,
    completed_by := "Fatima Al-Zahra", actual_hours := some 3, actual_cost := none,
    parts_used := none, work_notes := none,
    next_due_date := daysFromCivil 2025 1 19 + 30 }

/-- Three pending transfers and three schedules, for the pagination fixtures. -/
def dbList : DB :=
  { dbPend with
      transfers := [pendingT,
        mkTransfer 2 "TR-2" 1 (some "Rig 2") "Rig 5" none none "High"
          "Field to Field" "swap" 1 20001 none,
        mkTransfer 3 "TR-3" 1 (some "Rig 2") "Warehouse" none none "Low"
          "Field to Warehouse" "storage" 1 20002 none],
      schedules := [sched1, { sched1 with id := 2, pm_id := "PM-2" },
        { sched1 with id := 3, pm_id := "PM-3" }] }

/-- No query-string filters on `GET /api/transfers`. -/
def noTF : TransferFilters := { status := none, priority := none, asset := none, search := none }

/-- No query-string filters on `GET /api/maintenance`. -/
def noMF : MaintFilters :=
  { rig := none, asset := none, priority := none, taskType := none,
    search := none, status := none }

/-! ## Helper lemmas -/

/-- Mapping a function that preserves a predicate commutes with `find?`. -/
theorem find?_map_pres {α : Type} (p : α → Bool) (g : α → α) (l : List α)
    (hp : ∀ a, p (g a) = p a) :
    (l.map g).find? p = (l.find? p).map g := by
  induction l with
  | nil => rfl
  | cons a l ih =>
    simp only [List.map_cons, List.find?_cons, hp a]
    cases h : p a
    · simpa using ih
    · rfl

/-- No stage-1 outcome is `'Pending'`. -/
theorem opsNewStatus_ne_pending (action : String) : opsNewStatus action ≠ "Pending" := by
  unfold opsNewStatus
  split
  · decide
  · split <;> decide

/-- Every stage-2 outcome is `'Completed'`, `'Rejected'` or `'On Hold'`. -/
theorem mgrNewStatus_cases (action : String) :
    mgrNewStatus action = "Completed" ∨ mgrNewStatus action = "Rejected" ∨
      mgrNewStatus action = "On Hold" := by
  unfold mgrNewStatus
  split
  · exact Or.inl rfl
  · split
    · exact Or.inr (Or.inl rfl)
    · exact Or.inr (Or.inr rfl)

/-- No stage-2 outcome is `'Pending'`. -/
theorem mgrNewStatus_ne_pending (action : String) : mgrNewStatus action ≠ "Pending" := by
  unfold mgrNewStatus
  split
  · decide
  · split <;> decide

/-- On a transfer whose status is not `'Pending'`, approve-ops answers
`409 "Transfer is already <status>"` and leaves the database untouched. -/
theorem approveOps_conflict (db : DB) (ref : String) (userId : Nat)
    (action comment : String) (today : Int) (t : Transfer)
    (hv : validAction action = true) (hc : strTrim comment ≠ "")
    (hf : findTransfer db ref = some t) (hs : t.status ≠ "Pending") :
    approveOps db ref userId action comment today =
      (.err ⟨409, "Transfer is already " ++ t.status⟩, db) := by
  unfold approveOps approveOpsRead
  rw [hf]
  simp [hv, hc, hs]

/-- On a transfer whose status is not `'Ops Approved'`, approve-mgr answers
`409` naming the current status and leaves the database untouched. -/
theorem approveMgr_conflict (db : DB) (ref : String) (userId : Nat)
    (action comment : String) (today : Int) (fail : TxFail) (t : Transfer)
    (hv : validAction action = true) (hc : strTrim comment ≠ "")
    (hf : findTransfer db ref = some t) (hs : t.status ≠ "Ops Approved") :
    approveMgr db ref userId action comment today fail =
      (.err ⟨409, "Transfer must be Ops Approved first (currently: " ++ t.status ++ ")"⟩, db) := by
  unfold approveMgr
  rw [hf]
  simp [hv, hc, hs]

/-- Inversion of a successful approve-ops read phase. -/
theorem approveOpsRead_ok_inv (db : DB) (ref action comment : String) (t0 : Transfer)
    (h : approveOpsRead db ref action comment = .ok t0) :
    findTransfer db ref = some t0 ∧ t0.status = "Pending" ∧
      validAction action = true ∧ strTrim comment ≠ "" := by
  unfold approveOpsRead at h
  split at h
  · cases h
  next hv =>
  split at h
  · cases h
  next hc =>
  cases hfind : findTransfer db ref with
  | none => rw [hfind] at h; cases h
  | some t1 =>
    rw [hfind] at h
    dsimp only at h
    by_cases hnp : t1.status = "Pending"
    · rw [if_neg (not_not.mpr hnp)] at h
      injection h with h
      subst h
      exact ⟨rfl, hnp, not_not.mp hv, hc⟩
    · rw [if_pos hnp] at h
      cases h

/-- Inversion of a successful approve-ops call: the transfer was found in
status `'Pending'`, the response row is the decided row, and the stored
transfer list is the id-keyed update. -/
theorem approveOps_ok_inv (db db2 : DB) (ref : String) (userId : Nat)
    (action comment : String) (today : Int) (t' : Transfer)
    (h : approveOps db ref userId action comment today = (.ok t', db2)) :
    ∃ t, findTransfer db ref = some t ∧ t.status = "Pending" ∧
      t' = applyOpsDecision t userId action comment today ∧
      db2.transfers = updateTransferRow db.transfers t.id
        (fun x => applyOpsDecision x userId action comment today) := by
  unfold approveOps at h
  cases hr : approveOpsRead db ref action comment with
  | err e => rw [hr] at h; cases h
  | ok t0 =>
    rw [hr] at h
    obtain ⟨hfind, hp, hv, hc⟩ := approveOpsRead_ok_inv db ref action comment t0 hr
    injection h with h1 h2
    injection h1 with h1
    refine ⟨t0, hfind, hp, h1.symm, ?_⟩
    rw [← h2]
    split <;> rfl

/-- After a successful approve-ops, a second decision always hits the
conflict branch: the stored row now carries a stage-1 outcome status, which
is never `'Pending'`. -/
theorem approveOps_second_conflict (db db2 : DB) (ref : String) (userId : Nat)
    (action comment : String) (today : Int) (t' : Transfer)
    (userId2 : Nat) (action2 comment2 : String) (today2 : Int)
    (h : approveOps db ref userId action comment today = (.ok t', db2))
    (hv2 : validAction action2 = true) (hc2 : strTrim comment2 ≠ "") :
    approveOps db2 ref userId2 action2 comment2 today2 =
      (.err ⟨409, "Transfer is already " ++ t'.status⟩, db2) := by
  obtain ⟨t, hfind, hp, ht', hdb2⟩ := approveOps_ok_inv db db2 ref userId action comment today t' h
  subst ht'
  have hpres : ∀ x : Transfer, transferMatches ref
      (if x.id = t.id then applyOpsDecision x userId action comment today else x) =
      transferMatches ref x := by
    intro x
    by_cases hx : x.id = t.id
    · rw [if_pos hx]; rfl
    · rw [if_neg hx]
  have hfind2 : findTransfer db2 ref =
      some (applyOpsDecision t userId action comment today) := by
    unfold findTransfer
    rw [hdb2]
    unfold updateTransferRow
    rw [find?_map_pres _ _ _ hpres]
    unfold findTransfer at hfind
    rw [hfind]
    simp
  exact approveOps_conflict db2 ref userId2 action2 comment2 today2 _ hv2 hc2 hfind2
    (opsNewStatus_ne_pending action)

/-- With no statement failing, the approve-mgr transaction body applies the
full bundle. -/
theorem approveMgrTx_all_ok (db : DB) (t : Transfer) (userId : Nat) (comment : String)
    (today : Int) :
    approveMgrTx db t userId "approve" comment today ⟨false, false, false, false⟩ =
      some (applyMgrDecision t userId "approve" comment today,
            mgrBundle db t userId comment today) := rfl

/-- A page past the end of the list is empty. -/
theorem paginate_len_zero {α : Type} (xs : List α) (page limit : Nat)
    (h : xs.length ≤ (page - 1) * limit) : paginate xs page limit = [] := by
  unfold paginate
  rw [List.drop_eq_nil_of_le h, List.take_nil]

/-! ## Claim theorems -/

/-- Claim C1: for a transfer currently `'Ops Approved'`, approve-mgr with
action `approve` is all-or-nothing — whatever single statement of the
transaction fails, either the whole bundle (transfer row update to
`'Completed'` with stage-2 fields, asset relocation, asset-history append,
broadcast notification insert) is applied, or the database is exactly the
pre-call state (so the transfer is still `'Ops Approved'`); no partial state
is reachable. -/
theorem approveMgr_all_or_nothing (db : DB) (ref : String) (userId : Nat)
    (comment : String) (today : Int) (fail : TxFail) (t : Transfer)
    (hf : findTransfer db ref = some t) (hs : t.status = "Ops Approved")
    (hc : strTrim comment ≠ "") :
    approveMgr db ref userId "approve" comment today fail =
      (.ok (applyMgrDecision t userId "approve" comment today),
       mgrBundle db t userId comment today) ∨
    approveMgr db ref userId "approve" comment today fail =
      (.err ⟨500, "Internal server error"⟩, db) := by
  have hns : ¬ t.status ≠ "Ops Approved" := not_not.mpr hs
  obtain ⟨f1, f2, f3, f4⟩ := fail
  cases f1 <;> cases f2 <;> cases f3 <;> cases f4
  all_goals (
    first
    | (left
       unfold approveMgr approveMgrTx
       rw [hf]
       simp [validAction, hc, hns, mgrBundle]
       done)
    | (right
       unfold approveMgr approveMgrTx
       rw [hf]
       simp [validAction, hc, hns]))

/-- Witness for C1 at the `dbOps` fixture with no failing statement. -/
theorem approveMgr_all_or_nothing_witness :
    approveMgr dbOps "TR-1" 2 "approve" "done" 20002 ⟨false, false, false, false⟩ =
      (.ok (applyMgrDecision opsApprovedT 2 "approve" "done" 20002),
       mgrBundle dbOps opsApprovedT 2 "done" 20002) ∨
    approveMgr dbOps "TR-1" 2 "approve" "done" 20002 ⟨false, false, false, false⟩ =
      (.err ⟨500, "Internal server error"⟩, dbOps) :=
  approveMgr_all_or_nothing dbOps "TR-1" 2 "done" 20002 ⟨false, false, false, false⟩
    opsApprovedT (by decide) (by decide) (by decide)

/-- Claim C2 (code bug): the live-status precedence of the listing read.  The
`v_maintenance` view in `schema.sql` preserves the stored statuses
`'Completed'`, `'Cancelled'` **and** `'In Progress'`, as the claim states,
but the CASE actually served by `GET /api/maintenance`
(`routes/maintenance.js` lines 64-69) omits `'In Progress'` from the
preserved set: a stored `'In Progress'` schedule one day past due is reported
`'Overdue'` by the route, contradicting the view and the spec.  The remaining
conjuncts confirm the boundary behaviour the claim describes (due today is
`'Due Soon'`, never `'Overdue'`; `days_until_due` may be negative). -/
theorem liveStatus_route_overrides_in_progress :
    liveStatusRoute "In Progress" 99 100 14 = "Overdue" ∧
    liveStatusView "In Progress" 99 100 14 = "In Progress" ∧
    daysUntilDue 99 100 = -1 ∧
    liveStatusRoute "Scheduled" 100 100 14 = "Due Soon" ∧
    liveStatusView "Scheduled" 100 100 14 = "Due Soon" := by decide

/-- Claim C3: each approval stage requires the exact prior status, otherwise
answers `409` with a message naming the transfer's actual current status and
leaves the database unchanged; and after a successful approve-ops a second
approve-ops always fails with that conflict. -/
theorem approve_requires_exact_prior_status :
    (∀ (db : DB) (ref : String) (userId : Nat) (action comment : String) (today : Int)
       (t : Transfer), validAction action = true → strTrim comment ≠ "" →
       findTransfer db ref = some t → t.status ≠ "Pending" →
       approveOps db ref userId action comment today =
         (.err ⟨409, "Transfer is already " ++ t.status⟩, db)) ∧
    (∀ (db : DB) (ref : String) (userId : Nat) (action comment : String) (today : Int)
       (fail : TxFail) (t : Transfer), validAction action = true → strTrim comment ≠ "" →
       findTransfer db ref = some t → t.status ≠ "Ops Approved" →
       approveMgr db ref userId action comment today fail =
         (.err ⟨409, "Transfer must be Ops Approved first (currently: " ++ t.status ++ ")"⟩, db)) ∧
    (∀ (db db2 : DB) (ref : String) (userId : Nat) (action comment : String) (today : Int)
       (t' : Transfer) (userId2 : Nat) (action2 comment2 : String) (today2 : Int),
       approveOps db ref userId action comment today = (.ok t', db2) →
       validAction action2 = true → strTrim comment2 ≠ "" →
       approveOps db2 ref userId2 action2 comment2 today2 =
         (.err ⟨409, "Transfer is already " ++ t'.status⟩, db2)) :=
  ⟨fun db ref userId action comment today t hv hc hf hs =>
     approveOps_conflict db ref userId action comment today t hv hc hf hs,
   fun db ref userId action comment today fail t hv hc hf hs =>
     approveMgr_conflict db ref userId action comment today fail t hv hc hf hs,
   fun db db2 ref userId action comment today t' userId2 action2 comment2 today2 h hv2 hc2 =>
     approveOps_second_conflict db db2 ref userId action comment today t'
       userId2 action2 comment2 today2 h hv2 hc2⟩

/-- Witness for C3: a stage-1 decision on an already ops-approved transfer, a
stage-2 decision on a still-pending transfer, and a repeated stage-1 decision
after a successful one. -/
theorem approve_requires_exact_prior_status_witness :
    approveOps dbOps "TR-1" 3 "approve" "ok2" 20005 =
      (.err ⟨409, "Transfer is already Ops Approved"⟩, dbOps) ∧
    approveMgr dbPend "TR-1" 2 "approve" "go" 20005 ⟨false, false, false, false⟩ =
      (.err ⟨409, "Transfer must be Ops Approved first (currently: Pending)"⟩, dbPend) ∧
    approveOps (approveOps dbPend "TR-1" 3 "approve" "ok" 20001).2 "TR-1" 3
        "approve" "again" 20006 =
      (.err ⟨409, "Transfer is already Ops Approved"⟩,
       (approveOps dbPend "TR-1" 3 "approve" "ok" 20001).2) := by
  refine ⟨?_, ?_, ?_⟩
  · have h := approve_requires_exact_prior_status.1 dbOps "TR-1" 3 "approve" "ok2"
      20005 opsApprovedT (by decide) (by decide) (by decide) (by decide)
    rw [h]; decide
  · have h := approve_requires_exact_prior_status.2.1 dbPend "TR-1" 2 "approve" "go"
      20005 ⟨false, false, false, false⟩ pendingT (by decide) (by decide) (by decide) (by decide)
    rw [h]; decide
  · have h := approve_requires_exact_prior_status.2.2 dbPend
      (approveOps dbPend "TR-1" 3 "approve" "ok" 20001).2 "TR-1" 3 "approve" "ok"
      20001 opsApprovedT 3 "approve" "again" 20006 (by decide) (by decide) (by decide)
    rw [h]; decide

/-- Claim C4 (code bug): the completion endpoint issues the log `INSERT` and
the schedule `UPDATE` as two independent `pool.query` calls with no
transaction, so the pair is not atomic: with the log insert succeeding and
the schedule update failing, the request errors (500) yet the database has
gained the log row while the schedule is unchanged — a partial state the
claim (and the spec) rule out. -/
theorem completeTask_partial_commit :
    completeTask dbSched "PM-1" reqDone false true =
      (.err ⟨500, "Internal server error"⟩,
       { dbSched with mlogs := [logDone] }) ∧
    ({ dbSched with mlogs := [logDone] } : DB).schedules = dbSched.schedules ∧
    dbSched.mlogs = [] ∧
    ({ dbSched with mlogs := [logDone] } : DB) ≠ dbSched := by decide

/-- Claim C5 (code bug): the stage-1 status write is **not** conditioned on
the expected prior status — the `UPDATE` is keyed only on the transfer id.
Two decision submissions interleaved read-read-write-write on the same
pending transfer both pass the read-phase check against the original state
and both writes apply (no `ConflictError` for either): the second
unconditionally overwrites the first, ending at `'Rejected'`.  The last
conjunct shows the write phase applies even to a transfer already
`'Completed'`. -/
theorem approveOps_race_both_succeed :
    approveOpsRead dbPend "TR-1" "approve" "ok" = .ok pendingT ∧
    approveOpsRead dbPend "TR-1" "reject" "no" = .ok pendingT ∧
    ((approveOpsWrite dbPend 1 3 "approve" "ok" 20010).transfers.map Transfer.status)
      = ["Ops Approved"] ∧
    ((approveOpsWrite (approveOpsWrite dbPend 1 3 "approve" "ok" 20010) 1 2
        "reject" "no" 20010).transfers.map Transfer.status) = ["Rejected"] ∧
    ((approveOpsWrite dbDone 1 3 "approve" "ok" 20010).transfers.map Transfer.status)
      = ["Ops Approved"] := by decide

/-- Claim C6: completion fails with a 400 validation error (database
untouched) when `completionDate` or `completedBy` is absent; otherwise it
writes a log carrying the computed next-due date and resets the schedule to
`last_done_date = completionDate`, `next_due_date` = the computed value and
stored status `'Scheduled'` regardless of the prior stored status, where the
computed value is the explicit next-due date if supplied and otherwise the
completion date plus `frequency_days` calendar days. -/
theorem completeTask_behaviour (db : DB) (ref : String) (req : CompleteReq) (s : Schedule)
    (hf : findSchedule db ref = some s) :
    (∀ failLog failSched : Bool, req.completionDate = none ∨ req.completedBy = none →
       completeTask db ref req failLog failSched =
         (.err ⟨400, "completionDate and completedBy are required"⟩, db)) ∧
    (∀ (cd : Int) (cb : String), req.completionDate = some cd → req.completedBy = some cb →
       completeTask db ref req false false =
         (.ok ({ s with last_done_date := some cd,
                        next_due_date := computedNextDue req cd s.frequency_days,
                        status := "Scheduled" },
               { schedule_id := s.id, completion_date := cd, completed_by := cb,
                 actual_hours := req.actualHours, actual_cost := req.actualCost,
                 parts_used := req.partsUsed, work_notes := req.workNotes,
                 next_due_date := computedNextDue req cd s.frequency_days }),
          { db with
              mlogs := (db.mlogs ++
                [({ schedule_id := s.id, completion_date := cd, completed_by := cb,
                    actual_hours := req.actualHours, actual_cost := req.actualCost,
                    parts_used := req.partsUsed, work_notes := req.workNotes,
                    next_due_date := computedNextDue req cd s.frequency_days } :
                   MaintenanceLog)]),
              schedules := (db.schedules.map fun u => if u.id = s.id then
                { u with last_done_date := some cd,
                         next_due_date := computedNextDue req cd s.frequency_days,
                         status := "Scheduled" } else u) })) ∧
    (∀ cd freq : Int, req.nextDueDate = none → computedNextDue req cd freq = cd + freq) ∧
    (∀ cd freq d : Int, req.nextDueDate = some d → computedNextDue req cd freq = d) := by
  refine ⟨?_, ?_, ?_, ?_⟩
  · intro failLog failSched habs
    unfold completeTask
    rw [hf]
    rcases habs with h1 | h2
    · rw [h1]
    · rw [h2]
      cases req.completionDate <;> rfl
  · intro cd cb h1 h2
    unfold completeTask
    rw [hf, h1, h2]
    rfl
  · intro cd freq h
    unfold computedNextDue
    rw [h]
  · intro cd freq d h
    unfold computedNextDue
    rw [h]

/-- Witness for C6 at the `sched1` fixture: a missing `completedBy` is a 400
with the database untouched; completing the `'In Progress'` schedule on
2025-01-19 with `frequency_days = 30` and no explicit next-due date resets it
to `'Scheduled'` with `next_due_date` 2025-02-18. -/
theorem completeTask_behaviour_witness :
    completeTask dbSched "PM-1" reqNoBy false false =
      (.err ⟨400, "completionDate and completedBy are required"⟩, dbSched) ∧
    completeTask dbSched "PM-1" reqDone false false =
      (.ok ({ sched1 with last_done_date := some (daysFromCivil 2025 1 19),
                          next_due_date := daysFromCivil 2025 2 18,
                          status := "Scheduled" }, logDone),
       { dbSched with
           mlogs := [logDone],
           schedules := [{ sched1 with
             last_done_date := some (daysFromCivil 2025 1 19),
             next_due_date := daysFromCivil 2025 2 18,
             status := "Scheduled" }] }) ∧
    daysFromCivil 2025 1 19 + 30 = daysFromCivil 2025 2 18 := by
  have h := completeTask_behaviour dbSched "PM-1" reqNoBy sched1 (by decide)
  have h2 := completeTask_behaviour dbSched "PM-1" reqDone sched1 (by decide)
  refine ⟨h.1 false false (Or.inr rfl), ?_, by decide⟩
  have h3 := h2.2.1 (daysFromCivil 2025 1 19) "Fatima Al-Zahra" rfl rfl
  rw [h3]; decide
/-- Claim C7: over every transfer reachable through the route surface
(created pending with empty stage fields, then mutated only by the two
guarded approval updates — cancellation deletes the row and produces no
mutated state): the stage-1 fields are populated iff the status has left
`'Pending'`; the stage-2 fields are populated iff a stage-2 decision was
applied (the ghost flag, set exactly by the transition departing
`'Ops Approved'`), in which case the status is `'Completed'`, `'Rejected'`
or `'On Hold'`; and every mutation departs from `'Pending'` or
`'Ops Approved'`, so a `'Completed'` or `'Rejected'` transfer is never
mutated again. -/
theorem transfer_stage_invariant (t : Transfer) (b : Bool) (h : ReachT t b) :
    (stage1Set t = true ↔ t.status ≠ "Pending") ∧
    (stage2Set t = true ↔ b = true) ∧
    (b = true → t.status = "Completed" ∨ t.status = "Rejected" ∨ t.status = "On Hold") ∧
    (∀ u : Transfer, TransferStep t u → t.status = "Pending" ∨ t.status = "Ops Approved") := by
  induction h with
  | created id tid aid curLoc dest drig dcomp prio ttype reason reqBy reqDate reqdDate =>
    refine ⟨?_, ?_, ?_, ?_⟩
    · simp [stage1Set, mkTransfer]
    · simp [stage2Set, mkTransfer]
    · intro hb; cases hb
    · intro u hstep; exact Or.inl rfl
  | ops t b userId action comment today hr hp hv hc ih =>
    obtain ⟨ih1, ih2, ih3, ih4⟩ := ih
    refine ⟨?_, ?_, ?_, ?_⟩
    · exact ⟨fun _ => opsNewStatus_ne_pending action, fun _ => rfl⟩
    · exact ih2
    · intro hb
      rcases ih3 hb with h | h | h <;> rw [hp] at h <;> exact absurd h (by decide)
    · intro u hstep
      cases hstep with
      | ops _ _ _ _ h _ _ => exact Or.inl h
      | mgr _ _ _ _ h _ _ => exact Or.inr h
  | mgr t b userId action comment today hr hs hv hc ih =>
    obtain ⟨ih1, ih2, ih3, ih4⟩ := ih
    have hst1 : stage1Set t = true := ih1.mpr (by rw [hs]; decide)
    refine ⟨?_, ?_, ?_, ?_⟩
    · exact ⟨fun _ => mgrNewStatus_ne_pending action, fun _ => hst1⟩
    · exact ⟨fun _ => rfl, fun _ => rfl⟩
    · intro _; exact mgrNewStatus_cases action
    · intro u hstep
      cases hstep with
      | ops _ _ _ _ h _ _ => exact Or.inl h
      | mgr _ _ _ _ h _ _ => exact Or.inr h

/-- Witness for C7 along the concrete trace create → ops-approve →
mgr-approve ending at `completedT`. -/
theorem transfer_stage_invariant_witness :
    stage1Set completedT = true ∧ stage2Set completedT = true ∧
    completedT.status = "Completed" := by
  have hr : ReachT completedT true :=
    ReachT.mgr opsApprovedT false 2 "approve" "done" 20002
      (ReachT.ops pendingT false 3 "approve" "ok" 20001
        (ReachT.created 1 "TR-1" 1 (some "Rig 2") "Rig 5" (some 5) none "Normal"
          "Field to Field" "relocation" 1 20000 none) rfl rfl (by decide))
      rfl rfl (by decide)
  have h := transfer_stage_invariant completedT true hr
  exact ⟨h.1.mpr (by decide), h.2.1.mpr rfl, by decide⟩

/-- Claim C8, counterexample: cancelling a `'Completed'` transfer fails with
HTTP status 404 (`"Transfer not found or not cancellable"`), not with the
409 conflict response the claim requires (`ConflictError` maps to 409 in
this API, as the approval preconditions show). -/
theorem cancel_noncancellable_404_not_conflict :
    cancelTransfer dbDone "TR-1" =
      (.err ⟨404, "Transfer not found or not cancellable"⟩, dbDone) ∧
    (404 : Nat) ≠ 409 ∧
    cancelTransfer dbPend "TR-1" =
      (.ok "Transfer TR-1 cancelled", { dbPend with transfers := [] }) := by decide

/-- Claim C8 as amended: cancel hard-deletes the transfer only while its
status is `'Pending'` or `'On Hold'`; in any other status (or for an unknown
reference) it fails with the 404 response `"Transfer not found or not
cancellable"` — not a 409 conflict — and the table is unchanged.  On success
exactly the matching cancellable rows are removed. -/
theorem cancelTransfer_behaviour (db : DB) (ref : String) :
    ((∀ t ∈ db.transfers, cancellableMatch ref t = false) →
       cancelTransfer db ref = (.err ⟨404, "Transfer not found or not cancellable"⟩, db)) ∧
    ((∃ t ∈ db.transfers, cancellableMatch ref t = true) →
       (∃ t ∈ db.transfers, cancellableMatch ref t = true ∧
          (cancelTransfer db ref).1 = .ok ("Transfer " ++ t.transfer_id ++ " cancelled")) ∧
       (∀ u : Transfer, u ∈ (cancelTransfer db ref).2.transfers ↔
          u ∈ db.transfers ∧ cancellableMatch ref u = false)) := by
  constructor
  · intro hall
    have hfilt : db.transfers.filter (cancellableMatch ref) = [] := by
      rw [List.filter_eq_nil_iff]
      intro a ha
      simp [hall a ha]
    unfold cancelTransfer
    rw [hfilt]
  · rintro ⟨t, ht, hc⟩
    cases hfilt : db.transfers.filter (cancellableMatch ref) with
    | nil =>
      exact absurd (List.mem_filter.mpr ⟨ht, hc⟩) (by rw [hfilt]; exact List.not_mem_nil t)
    | cons t0 rest =>
      have ht0 : t0 ∈ db.transfers ∧ cancellableMatch ref t0 = true := by
        have : t0 ∈ db.transfers.filter (cancellableMatch ref) := by
          rw [hfilt]; exact List.mem_cons_self t0 rest
        exact List.mem_filter.mp this
      constructor
      · refine ⟨t0, ht0.1, ht0.2, ?_⟩
        unfold cancelTransfer
        rw [hfilt]
      · intro u
        unfold cancelTransfer
        rw [hfilt]
        simp [List.mem_filter]

/-- Witness for C8 (amended) at the `dbDone` fixture: no row is cancellable,
so the response is the 404 and the database is unchanged. -/
theorem cancelTransfer_behaviour_witness :
    cancelTransfer dbDone "TR-1" =
      (.err ⟨404, "Transfer not found or not cancellable"⟩, dbDone) :=
  (cancelTransfer_behaviour dbDone "TR-1").1 (by decide)

/-- Claim C9: on final approval the asset update changes exactly the
location (always set to the transfer's destination), the rig reference (set
to the destination rig only when that reference is present, otherwise kept —
never cleared by a null destination reference) and the company reference
(likewise); every other asset column is untouched.  The last conjunct shows
this update is exactly the one the approve-mgr bundle applies. -/
theorem applyRelocation_frame (a : Asset) (dest : String) (drig dcomp : Option Nat) :
    (applyRelocation a dest drig dcomp).location = some dest ∧
    (applyRelocation a dest drig dcomp).rig_id =
      (match drig with | some r => some r | none => a.rig_id) ∧
    (applyRelocation a dest drig dcomp).company_id =
      (match dcomp with | some c => some c | none => a.company_id) ∧
    (applyRelocation a dest drig dcomp).id = a.id ∧
    (applyRelocation a dest drig dcomp).asset_id = a.asset_id ∧
    (applyRelocation a dest drig dcomp).name = a.name ∧
    (applyRelocation a dest drig dcomp).category = a.category ∧
    (applyRelocation a dest drig dcomp).contract_id = a.contract_id ∧
    (applyRelocation a dest drig dcomp).status = a.status ∧
    (applyRelocation a dest drig dcomp).value_usd = a.value_usd ∧
    (applyRelocation a dest drig dcomp).acquisition_date = a.acquisition_date ∧
    (applyRelocation a dest drig dcomp).year_manufactured = a.year_manufactured ∧
    (applyRelocation a dest drig dcomp).serial_number = a.serial_number ∧
    (applyRelocation a dest drig dcomp).manufacturer = a.manufacturer ∧
    (applyRelocation a dest drig dcomp).model = a.model ∧
    (applyRelocation a dest drig dcomp).weight_kg = a.weight_kg ∧
    (applyRelocation a dest drig dcomp).dimensions = a.dimensions ∧
    (applyRelocation a dest drig dcomp).notes = a.notes ∧
    (applyRelocation a dest drig dcomp).created_by = a.created_by ∧
    (∀ (db : DB) (t : Transfer) (userId : Nat) (comment : String) (today : Int),
       approveMgrTx db t userId "approve" comment today ⟨false, false, false, false⟩ =
         some (applyMgrDecision t userId "approve" comment today,
               mgrBundle db t userId comment today)) :=
  ⟨rfl, rfl, rfl, rfl, rfl, rfl, rfl, rfl, rfl, rfl, rfl, rfl, rfl, rfl, rfl, rfl,
   rfl, rfl, rfl, fun _ _ _ _ _ => rfl⟩

/-- Witness for C9 at the `asset1` fixture: relocation to "Rig 5" with a
destination rig set and no destination company sets the location and the rig
link and keeps the company link. -/
theorem applyRelocation_frame_witness :
    (applyRelocation asset1 "Rig 5" (some 5) none).location = some "Rig 5" ∧
    (applyRelocation asset1 "Rig 5" (some 5) none).rig_id = some 5 ∧
    (applyRelocation asset1 "Rig 5" (some 5) none).company_id = asset1.company_id :=
  ⟨(applyRelocation_frame asset1 "Rig 5" (some 5) none).1,
   (applyRelocation_frame asset1 "Rig 5" (some 5) none).2.1,
   (applyRelocation_frame asset1 "Rig 5" (some 5) none).2.2.1⟩

/-- Claim C10: on both listing endpoints the response's `total` equals the
length of the returned page (computed after `LIMIT`/`OFFSET`), not the count
of all records matching the filter; in particular a page entirely beyond the
matching data yields `total = 0` even when matching records exist. -/
theorem listing_total_matches_page :
    (∀ (db : DB) (f : TransferFilters) (page limit : Nat),
       (listTransfers db f page limit).2 = (listTransfers db f page limit).1.length) ∧
    (∀ (db : DB) (today : Int) (f : MaintFilters) (page limit : Nat),
       (listMaintenance db today f page limit).2 =
         (listMaintenance db today f page limit).1.length) ∧
    (∀ (db : DB) (f : TransferFilters) (page limit : Nat),
       0 < (db.transfers.filter (transferRowMatches db f)).length →
       (db.transfers.filter (transferRowMatches db f)).length ≤ (page - 1) * limit →
       (listTransfers db f page limit).2 = 0) ∧
    (∀ (db : DB) (today : Int) (f : MaintFilters) (page limit : Nat),
       0 < (db.schedules.filter (maintRowMatches db today f)).length →
       (db.schedules.filter (maintRowMatches db today f)).length ≤ (page - 1) * limit →
       (listMaintenance db today f page limit).2 = 0) := by
  refine ⟨fun db f page limit => rfl, fun db today f page limit => rfl, ?_, ?_⟩
  · intro db f page limit hpos hbeyond
    show (paginate ((db.transfers.filter (transferRowMatches db f)).mergeSort
      transferOrder) page limit).length = 0
    rw [paginate_len_zero]
    · rfl
    · rw [List.length_mergeSort]
      exact hbeyond
  · intro db today f page limit hpos hbeyond
    show (paginate ((db.schedules.filter (maintRowMatches db today f)).mergeSort
      (maintOrder today)) page limit).length = 0
    rw [paginate_len_zero]
    · rfl
    · rw [List.length_mergeSort]
      exact hbeyond

/-- Witness for C10 at the `dbList` fixture: three transfers and three
schedules match (no filters), yet page 3 with limit 2 answers `total = 0`. -/
theorem listing_total_matches_page_witness :
    (listTransfers dbList noTF 3 2).2 = 0 ∧
    0 < (dbList.transfers.filter (transferRowMatches dbList noTF)).length ∧
    (listMaintenance dbList 20100 noMF 3 2).2 = 0 ∧
    0 < (dbList.schedules.filter (maintRowMatches dbList 20100 noMF)).length :=
  ⟨listing_total_matches_page.2.2.1 dbList noTF 3 2 (by decide) (by decide),
   by decide,
   listing_total_matches_page.2.2.2 dbList 20100 noMF 3 2 (by decide) (by decide),
   by decide⟩

end RigAsset
